import Mathlib

/-!
Verification of the ASTC decode wrapper (`astc-decode.js`).

The wrapper's own logic is: parsing the 16-byte ASTC container header
(`parseASTCHeader`), marshalling the compressed payload to an opaque
WebAssembly decode routine, and reshaping the returned pixel buffer
(`decodeASTCTexture`).  Byte buffers are modelled as `List Nat` (a
`Uint8Array` holds values in 0..255; where a statement needs that bound it
carries it as a hypothesis).  The opaque WebAssembly decoder is modelled as
an arbitrary function from the arguments actually passed to it to a byte
buffer, and `decodeASTCTexture` additionally returns the list of
WebAssembly invocations it performed, so that claims about what is (not)
called on the error paths can be stated.
-/

/-- The ASTC magic number bytes (`EXPECTED_MAGIC` in the source). -/
def EXPECTED_MAGIC : List Nat := [0x13, 0xAB, 0xA1, 0x5C]

/-- Byte access on a buffer: `data[i]` of the source; `Uint8Array` reads are
total, and all reads in the parser are guarded by the length check, so the
default value is never observable. -/
def byteAt (data : List Nat) (i : Nat) : Nat := data.getD i 0

/-- The magic-number validation of `parseASTCHeader`
(`EXPECTED_MAGIC.every((byte, index) => data[index] === byte)`). -/
def isValidMagic (data : List Nat) : Bool :=
  EXPECTED_MAGIC.enum.all fun p => byteAt data p.1 == p.2

/-- The 24-bit little-endian read `data[i] | (data[i+1] << 8) | (data[i+2] << 16)`
used for the three image dimensions. -/
def read24LE (data : List Nat) (i : Nat) : Nat :=
  byteAt data i ||| (byteAt data (i + 1) <<< 8) ||| (byteAt data (i + 2) <<< 16)

/-- The parsed header record returned by `parseASTCHeader`. -/
structure ASTCHeader where
  blockSize : String
  blockWidth : Nat
  blockHeight : Nat
  blockDepth : Nat
  dimensions : String
  width : Nat
  height : Nat
  depth : Nat
  isValid : Bool
  headerSize : Nat
  deriving Repr, DecidableEq

/-- `parseASTCHeader(data)`: validates length and magic, extracts the block
footprint (bytes 4-6) and the three 24-bit little-endian dimensions
(bytes 7-15), and rejects zero image width/height and zero block
width/height.  JavaScript exceptions are modelled as `Except.error` with the
source's message text. -/
def parseASTCHeader (data : List Nat) : Except String ASTCHeader :=
  if data.length < 16 then
    .error "Invalid ASTC file: Header requires 16 bytes"
  else if !(isValidMagic data) then
    .error "Invalid ASTC magic number. File may be corrupted or not ASTC format"
  else
    let blockWidth := byteAt data 4
    let blockHeight := byteAt data 5
    let blockDepth := byteAt data 6
    let width := read24LE data 7
    let height := read24LE data 10
    let depth := read24LE data 13
    if width = 0 ∨ height = 0 then
      .error "Invalid image dimensions in ASTC header"
    else if blockWidth = 0 ∨ blockHeight = 0 then
      .error "Invalid block dimensions in ASTC header"
    else
      .ok { blockSize := toString blockWidth ++ "x" ++ toString blockHeight
            blockWidth := blockWidth
            blockHeight := blockHeight
            blockDepth := blockDepth
            dimensions := toString width ++ "x" ++ toString height
            width := width
            height := height
            depth := depth
            isValid := true
            headerSize := 16 }

/-- One invocation of the WebAssembly side by `decodeASTCTexture`: the
allocation of `data.length` bytes (`__wbindgen_malloc` via
`passArray8ToWasm0`) followed by the `wasm.astcDecode` call on these
arguments.  Note the depth fields of the header are not among them. -/
structure WasmCall where
  data : List Nat
  width : Nat
  height : Nat
  blockWidth : Nat
  blockHeight : Nat
  deriving Repr, DecidableEq

/-- The buffer-reshaping step of `decodeASTCTexture`: a fresh zero-filled
buffer of `n` bytes whose first `min xs.length n` bytes are copied from
`xs` (`new Uint8Array(expectedSize)` followed by
`properSizedData.set(decodedImage.subarray(0, copyLength), 0)`). -/
def padTruncate (xs : List Nat) (n : Nat) : List Nat :=
  xs.take n ++ List.replicate (n - xs.length) 0

/-- `decodeASTCTexture(astcData)`.  `wasmInit` models whether the module is
initialized (`wasm` non-null); `astcDecode` models the opaque WebAssembly
decode as an arbitrary function of the arguments actually passed across the
boundary, returning the decoded byte buffer.  The second component of the
result is the list of WebAssembly invocations performed. -/
def decodeASTCTexture (wasmInit : Bool) (astcDecode : WasmCall → List Nat)
    (astcData : List Nat) : Except String (List Nat) × List WasmCall :=
  if !wasmInit then
    (.error "WebAssembly module not initialized. Call initASTCDecoder() first", [])
  else
    match parseASTCHeader astcData with
    | .error e => (.error e, [])
    | .ok header =>
      let compressedData := astcData.drop header.headerSize
      if compressedData.length = 0 then
        (.error "No compressed data found after ASTC header", [])
      else
        let call : WasmCall :=
          { data := compressedData
            width := header.width
            height := header.height
            blockWidth := header.blockWidth
            blockHeight := header.blockHeight }
        let decodedImage := astcDecode call
        let expectedSize := header.width * header.height * 4
        if decodedImage.length ≠ expectedSize then
          (.ok (padTruncate decodedImage expectedSize), [call])
        else
          (.ok decodedImage, [call])

/-- Whether an `Except` result is the error case (a thrown JS exception). -/
def isErr : Except String ASTCHeader → Bool
  | .error _ => true
  | .ok _ => false

/-- Whether a decode result is the error case. -/
def isErrD : Except String (List Nat) → Bool
  | .error _ => true
  | .ok _ => false

/-- Modelled from the spec: the declared block count
`ceil(w/bw) * ceil(h/bh) * ceil(d/bd)` of a parsed header.  The source
contains no such computation (the wrapper never validates payload size
against it); this definition only serves to state the premise of the
truncated-payload claim. -/
def declaredBlockCount (h : ASTCHeader) : Nat :=
  ((h.width + h.blockWidth - 1) / h.blockWidth) *
    ((h.height + h.blockHeight - 1) / h.blockHeight) *
    ((h.depth + h.blockDepth - 1) / h.blockDepth)

/-- Modelled from the spec: serialization of header fields into the 16-byte
layout (magic, block footprint at bytes 4-6, three 24-bit little-endian
dimensions at bytes 7-15).  The source has no encoder; this follows the
layout table of the spec, for the round-trip claim. -/
def encodeHeaderSpec (bw bh bd w h d : Nat) : List Nat :=
  EXPECTED_MAGIC ++
    [bw, bh, bd,
     w % 256, w / 256 % 256, w / 65536 % 256,
     h % 256, h / 256 % 256, h / 65536 % 256,
     d % 256, d / 256 % 256, d / 65536 % 256]

/-- The record produced on the success path of `parseASTCHeader`. -/
def mkHeader (data : List Nat) : ASTCHeader :=
  { blockSize := toString (byteAt data 4) ++ "x" ++ toString (byteAt data 5)
    blockWidth := byteAt data 4
    blockHeight := byteAt data 5
    blockDepth := byteAt data 6
    dimensions := toString (read24LE data 7) ++ "x" ++ toString (read24LE data 10)
    width := read24LE data 7
    height := read24LE data 10
    depth := read24LE data 13
    isValid := true
    headerSize := 16 }

/-! ### Concrete buffers and WebAssembly decode functions used to evaluate
the development on specific inputs -/

/-- A WebAssembly decode stub returning an empty buffer. -/
def fnEmpty : WasmCall → List Nat := fun _ => []

/-- A WebAssembly decode stub returning a five-byte buffer. -/
def fnFive : WasmCall → List Nat := fun _ => [7, 7, 7, 7, 7]

/-- A well-formed file declaring a 1x1 image of depth 2 with one payload
byte. -/
def cexC1 : List Nat :=
  [0x13, 0xAB, 0xA1, 0x5C, 1, 1, 1, 1, 0, 0, 1, 0, 0, 2, 0, 0, 9]

/-- A 16-byte header with correct magic whose block depth (byte 6) and
image depth (bytes 13-15) are zero while every other component is
non-zero. -/
def cexC2 : List Nat :=
  [0x13, 0xAB, 0xA1, 0x5C, 4, 4, 0, 1, 0, 0, 1, 0, 0, 0, 0, 0]

/-- A header declaring an 8x8 image with 4x4 blocks (a 2x2 block grid, so
four 16-byte blocks are declared) followed by only one block's worth of
payload bytes. -/
def cexC6 : List Nat :=
  [0x13, 0xAB, 0xA1, 0x5C, 4, 4, 1, 8, 0, 0, 8, 0, 0, 1, 0, 0] ++
    List.replicate 16 2

/-- A well-formed file declaring a 2x1 image with one payload byte. -/
def wC1 : List Nat :=
  [0x13, 0xAB, 0xA1, 0x5C, 1, 1, 1, 2, 0, 0, 1, 0, 0, 1, 0, 0, 5]

/-- A 16-byte header with correct magic and zero block width. -/
def wC2 : List Nat :=
  [0x13, 0xAB, 0xA1, 0x5C, 0, 1, 1, 1, 0, 0, 1, 0, 0, 1, 0, 0]

/-- A 16-byte header with correct magic and multi-byte dimension values. -/
def wC4 : List Nat :=
  [0x13, 0xAB, 0xA1, 0x5C, 4, 4, 1, 0x10, 0x20, 0x01, 8, 0, 0, 1, 0, 0]

/-- A well-formed file declaring a 1x1 image with one payload byte. -/
def wC5 : List Nat :=
  [0x13, 0xAB, 0xA1, 0x5C, 1, 1, 1, 1, 0, 0, 1, 0, 0, 1, 0, 0, 3]

/-- The WebAssembly invocation `decodeASTCTexture` performs on `wC5`. -/
def wC5call : WasmCall := ⟨[3], 1, 1, 1, 1⟩

/-- A header declaring an 8x8 image with 4x4 blocks followed by a 20-byte
payload (less than the four declared blocks require). -/
def wC6 : List Nat :=
  [0x13, 0xAB, 0xA1, 0x5C, 4, 4, 1, 8, 0, 0, 8, 0, 0, 1, 0, 0] ++
    List.replicate 20 3

/-- An otherwise-valid file whose four magic bytes are zeroed out. -/
def wC7 : List Nat :=
  [0, 0, 0, 0, 4, 4, 1, 8, 0, 0, 8, 0, 0, 1, 0, 0] ++ List.replicate 64 5

/-- A well-formed file with block depth 1 and image depth 1. -/
def wC9a : List Nat :=
  [0x13, 0xAB, 0xA1, 0x5C, 4, 4, 1, 8, 0, 0, 8, 0, 0, 1, 0, 0, 1, 2, 3]

/-- The same file as `wC9a` except byte 6 (block depth) is 9 and bytes
13-15 (image depth) are 7 7 7. -/
def wC9b : List Nat :=
  [0x13, 0xAB, 0xA1, 0x5C, 4, 4, 9, 8, 0, 0, 8, 0, 0, 7, 7, 7, 1, 2, 3]

/-- A valid 16-byte header with nothing after it. -/
def wC10 : List Nat :=
  [0x13, 0xAB, 0xA1, 0x5C, 5, 5, 1, 3, 0, 0, 3, 0, 0, 1, 0, 0]

/-! ### Basic facts about the byte-level readers -/

/-- A buffer whose elements are bytes yields byte-sized reads everywhere
(out-of-range reads give the default 0). -/
theorem byteAt_lt_256 {l : List Nat} (h : ∀ x ∈ l, x < 256) (i : Nat) :
    byteAt l i < 256 := by
  by_cases hi : i < l.length
  · rw [byteAt, List.getD_eq_getElem?_getD, List.getElem?_eq_getElem hi]
    exact h _ (List.getElem_mem hi)
  · rw [byteAt, List.getD_eq_getElem?_getD, List.getElem?_eq_none (by omega)]
    simp

/-- Composing three bytes with `|` and `<<` is the 24-bit little-endian value. -/
theorem lor24_eq_add {a b c : Nat} (ha : a < 256) (hb : b < 256) :
    a ||| (b <<< 8) ||| (c <<< 16) = a + b * 256 + c * 65536 := by
  have h8 : b <<< 8 = 2 ^ 8 * b := by rw [Nat.shiftLeft_eq]; ring
  have h16 : c <<< 16 = 2 ^ 16 * c := by rw [Nat.shiftLeft_eq]; ring
  have ha8 : a < 2 ^ 8 := by norm_num; omega
  have h1 : a ||| b <<< 8 = 2 ^ 8 * b + a := by
    rw [h8, Nat.lor_comm, ← Nat.mul_add_lt_is_or ha8 b]
  have h2 : a ||| b <<< 8 < 2 ^ 16 := by rw [h1]; norm_num; omega
  calc a ||| b <<< 8 ||| c <<< 16
      = 2 ^ 16 * c ||| (a ||| b <<< 8) := by rw [h16, Nat.lor_comm]
    _ = 2 ^ 16 * c + (a ||| b <<< 8) := (Nat.mul_add_lt_is_or h2 c).symm
    _ = a + b * 256 + c * 65536 := by rw [h1]; norm_num; ring

/-- The 24-bit little-endian read, in arithmetic form, on byte-valued data. -/
theorem read24LE_eq_add {data : List Nat} (i : Nat)
    (h1 : byteAt data i < 256) (h2 : byteAt data (i + 1) < 256) :
    read24LE data i =
      byteAt data i + byteAt data (i + 1) * 256 + byteAt data (i + 2) * 65536 :=
  lor24_eq_add h1 h2

/-- The magic check of the source is the conjunction of the four byte tests. -/
theorem isValidMagic_iff (data : List Nat) :
    isValidMagic data = true ↔
      (byteAt data 0 = 0x13 ∧ byteAt data 1 = 0xAB ∧
       byteAt data 2 = 0xA1 ∧ byteAt data 3 = 0x5C) := by
  have h : isValidMagic data =
      ((byteAt data 0 == 0x13) && ((byteAt data 1 == 0xAB) &&
        ((byteAt data 2 == 0xA1) && ((byteAt data 3 == 0x5C) && true)))) := rfl
  rw [h]
  simp [Bool.and_eq_true, beq_iff_eq, and_assoc]

/-! ### Characterizations of parseASTCHeader -/

/-- When every validation passes, `parseASTCHeader` returns the extracted
record. -/
theorem parse_ok_of {data : List Nat} (h1 : ¬ data.length < 16)
    (h2 : isValidMagic data = true)
    (h3 : ¬(read24LE data 7 = 0 ∨ read24LE data 10 = 0))
    (h4 : ¬(byteAt data 4 = 0 ∨ byteAt data 5 = 0)) :
    parseASTCHeader data = .ok (mkHeader data) := by
  simp only [parseASTCHeader, mkHeader]
  rw [if_neg h1, if_neg (by simp [h2]), if_neg h3, if_neg h4]

/-- The parser fails exactly when one of the four checks fails: the length
check, the magic check, the zero check on image width/height, or the zero
check on block width/height. -/
theorem parse_fail_iff_core (data : List Nat) :
    isErr (parseASTCHeader data) = true ↔
      (data.length < 16 ∨ isValidMagic data = false ∨
       read24LE data 7 = 0 ∨ read24LE data 10 = 0 ∨
       byteAt data 4 = 0 ∨ byteAt data 5 = 0) := by
  simp only [parseASTCHeader]
  split_ifs with h1 h2 h3 h4 <;>
    simp only [isErr, Bool.not_eq_true', Bool.not_eq_false] at * <;>
    simp_all <;> tauto

/-- A successful parse pins down every field of the returned record. -/
theorem parse_ok_elim {data : List Nat} {h : ASTCHeader}
    (hp : parseASTCHeader data = .ok h) : h = mkHeader data := by
  simp only [parseASTCHeader, mkHeader] at hp ⊢
  split_ifs at hp <;> simp_all [mkHeader]

/-! ### Characterizations of decodeASTCTexture -/

/-- With the module uninitialized, decode throws before touching anything. -/
theorem decode_not_init (fn : WasmCall → List Nat) (data : List Nat) :
    decodeASTCTexture false fn data =
      (.error "WebAssembly module not initialized. Call initASTCDecoder() first",
       []) := rfl

/-- A header-parse failure propagates out of `decodeASTCTexture` with no
WebAssembly invocation. -/
theorem decode_parse_err (fn : WasmCall → List Nat) {data : List Nat} {e : String}
    (hp : parseASTCHeader data = .error e) :
    decodeASTCTexture true fn data = (.error e, []) := by
  simp only [decodeASTCTexture, hp, Bool.not_true, Bool.false_eq_true, if_false]

/-- With a parsed header and an empty payload, decode throws with no
WebAssembly invocation. -/
theorem decode_empty_payload (fn : WasmCall → List Nat) {data : List Nat}
    {h : ASTCHeader} (hp : parseASTCHeader data = .ok h)
    (he : (data.drop h.headerSize).length = 0) :
    decodeASTCTexture true fn data =
      (.error "No compressed data found after ASTC header", []) := by
  simp only [decodeASTCTexture, hp, Bool.not_true, Bool.false_eq_true, if_false, he,
    if_pos]

/-- With a parsed header and a non-empty payload, decode invokes the
WebAssembly decoder once on the payload and reshapes its output when the
size disagrees with width*height*4. -/
theorem decode_ok_payload (fn : WasmCall → List Nat) {data : List Nat}
    {h : ASTCHeader} (hp : parseASTCHeader data = .ok h)
    (he : (data.drop h.headerSize).length ≠ 0) :
    decodeASTCTexture true fn data =
      (if (fn ⟨data.drop h.headerSize, h.width, h.height, h.blockWidth, h.blockHeight⟩).length ≠
            h.width * h.height * 4 then
        (.ok (padTruncate
              (fn ⟨data.drop h.headerSize, h.width, h.height, h.blockWidth, h.blockHeight⟩)
              (h.width * h.height * 4)),
         [⟨data.drop h.headerSize, h.width, h.height, h.blockWidth, h.blockHeight⟩])
      else
        (.ok (fn ⟨data.drop h.headerSize, h.width, h.height, h.blockWidth, h.blockHeight⟩),
         [⟨data.drop h.headerSize, h.width, h.height, h.blockWidth, h.blockHeight⟩])) := by
  simp only [decodeASTCTexture, hp, Bool.not_true, Bool.false_eq_true, if_false,
    if_neg he]

/-! ### Facts about the reshaping buffer -/

/-- The reshaped buffer always has the requested size. -/
theorem padTruncate_length (xs : List Nat) (n : Nat) :
    (padTruncate xs n).length = n := by
  simp [padTruncate]
  omega

/-- The copied region of the reshaped buffer agrees with the source. -/
theorem padTruncate_take (xs : List Nat) (n : Nat) :
    (padTruncate xs n).take (min xs.length n) = xs.take (min xs.length n) := by
  have hlt : (xs.take n).length = min xs.length n := by
    simp [List.length_take]
    omega
  rw [padTruncate, List.take_left' hlt]
  rcases le_or_lt xs.length n with hle | hgt
  · rw [Nat.min_eq_left hle, List.take_of_length_le hle,
      List.take_of_length_le (le_refl _)]
  · rw [Nat.min_eq_right (le_of_lt hgt)]

/-- Beyond the copied region, the reshaped buffer consists of zeros. -/
theorem padTruncate_drop (xs : List Nat) (n : Nat) :
    (padTruncate xs n).drop (min xs.length n) =
      List.replicate (n - min xs.length n) 0 := by
  have hlt : (xs.take n).length = min xs.length n := by
    simp [List.length_take]
    omega
  rw [padTruncate, List.drop_left' hlt]
  congr 1
  omega

/-- Two equal-length buffers that agree from index 16 on have the same
payload region. -/
theorem drop16_eq_of_agree {l1 l2 : List Nat} (hlen : l1.length = l2.length)
    (h : ∀ i, 16 ≤ i → byteAt l1 i = byteAt l2 i) : l1.drop 16 = l2.drop 16 := by
  apply List.ext_getElem
  · simp [hlen]
  · intro i h1 h2
    have hi1 : 16 + i < l1.length := by simp at h1; omega
    have hi2 : 16 + i < l2.length := by simp at h2; omega
    have hb := h (16 + i) (by omega)
    rw [byteAt, byteAt, List.getD_eq_getElem?_getD, List.getD_eq_getElem?_getD,
      List.getElem?_eq_getElem hi1, List.getElem?_eq_getElem hi2] at hb
    simpa [List.getElem_drop] using hb

/-- The length check fires first. -/
theorem parse_err_len {data : List Nat} (h : data.length < 16) :
    parseASTCHeader data =
      .error "Invalid ASTC file: Header requires 16 bytes" := by
  simp only [parseASTCHeader]
  rw [if_pos h]

/-- The magic check fires second. -/
theorem parse_err_magic {data : List Nat} (h1 : ¬ data.length < 16)
    (h2 : isValidMagic data = false) :
    parseASTCHeader data =
      .error "Invalid ASTC magic number. File may be corrupted or not ASTC format" := by
  simp only [parseASTCHeader]
  rw [if_neg h1, if_pos (by simp [h2])]

/-- The image-dimension zero check fires third. -/
theorem parse_err_dims {data : List Nat} (h1 : ¬ data.length < 16)
    (h2 : isValidMagic data = true)
    (h3 : read24LE data 7 = 0 ∨ read24LE data 10 = 0) :
    parseASTCHeader data = .error "Invalid image dimensions in ASTC header" := by
  simp only [parseASTCHeader]
  rw [if_neg h1, if_neg (by simp [h2]), if_pos h3]

/-- The block-dimension zero check fires last. -/
theorem parse_err_blocks {data : List Nat} (h1 : ¬ data.length < 16)
    (h2 : isValidMagic data = true)
    (h3 : ¬(read24LE data 7 = 0 ∨ read24LE data 10 = 0))
    (h4 : byteAt data 4 = 0 ∨ byteAt data 5 = 0) :
    parseASTCHeader data = .error "Invalid block dimensions in ASTC header" := by
  simp only [parseASTCHeader]
  rw [if_neg h1, if_neg (by simp [h2]), if_neg h3, if_pos h4]

/-- `mkHeader` field computation: width. -/
theorem mkHeader_width (data : List Nat) :
    (mkHeader data).width = read24LE data 7 := rfl

/-- `mkHeader` field computation: height. -/
theorem mkHeader_height (data : List Nat) :
    (mkHeader data).height = read24LE data 10 := rfl

/-- `mkHeader` field computation: block width. -/
theorem mkHeader_blockWidth (data : List Nat) :
    (mkHeader data).blockWidth = byteAt data 4 := rfl

/-- `mkHeader` field computation: block height. -/
theorem mkHeader_blockHeight (data : List Nat) :
    (mkHeader data).blockHeight = byteAt data 5 := rfl

/-- `mkHeader` field computation: header size. -/
theorem mkHeader_headerSize (data : List Nat) :
    (mkHeader data).headerSize = 16 := rfl

/-! ### The claims -/

/-- Claim C3: `parseASTCHeader` fails if and only if the buffer is shorter
than 16 bytes, or its first four bytes are not exactly 0x13 0xAB 0xA1 0x5C,
or a validated component (image width, image height, block width, block
height) is zero; in particular every short buffer and every buffer with a
wrong magic prefix is rejected. -/
theorem C3_parse_fail_iff (data : List Nat) :
    isErr (parseASTCHeader data) = true ↔
      (data.length < 16 ∨
       ¬(byteAt data 0 = 0x13 ∧ byteAt data 1 = 0xAB ∧
         byteAt data 2 = 0xA1 ∧ byteAt data 3 = 0x5C) ∨
       read24LE data 7 = 0 ∨ read24LE data 10 = 0 ∨
       byteAt data 4 = 0 ∨ byteAt data 5 = 0) := by
  have hm : isValidMagic data = false ↔
      ¬(byteAt data 0 = 0x13 ∧ byteAt data 1 = 0xAB ∧
        byteAt data 2 = 0xA1 ∧ byteAt data 3 = 0x5C) := by
    rw [Bool.eq_false_iff, Ne, isValidMagic_iff]
  rw [parse_fail_iff_core, hm]

/-- Claim C2 (amended): for a buffer of length at least 16 with correct
magic, `parseASTCHeader` fails if and only if one of the four validated
components (image width, image height, block width, block height) is zero;
block depth (byte 6) and image depth (bytes 13-15) are never validated. -/
theorem C2_zero_check_iff (data : List Nat) (h1 : ¬ data.length < 16)
    (h2 : isValidMagic data = true) :
    isErr (parseASTCHeader data) = true ↔
      (read24LE data 7 = 0 ∨ read24LE data 10 = 0 ∨
       byteAt data 4 = 0 ∨ byteAt data 5 = 0) := by
  rw [parse_fail_iff_core]
  simp [h1, h2]

/-- Claim C2 (counterexample): a 16-byte buffer with correct magic whose
block depth and image depth components are zero is accepted by
`parseASTCHeader`, contradicting the claim that a zero in any of the six
extracted components is rejected. -/
theorem C2_zero_check_cex :
    ¬ cexC2.length < 16 ∧ isValidMagic cexC2 = true ∧
    byteAt cexC2 6 = 0 ∧ read24LE cexC2 13 = 0 ∧
    isErr (parseASTCHeader cexC2) = false :=
  ⟨by decide, by decide, by decide, by decide, by decide⟩

/-- Claim C2 (witness): the amended equivalence evaluated on a concrete
header with zero block width. -/
theorem C2_zero_check_iff_witness :
    (¬ wC2.length < 16) ∧ isValidMagic wC2 = true ∧
    (isErr (parseASTCHeader wC2) = true ↔
      (read24LE wC2 7 = 0 ∨ read24LE wC2 10 = 0 ∨
       byteAt wC2 4 = 0 ∨ byteAt wC2 5 = 0)) :=
  ⟨by decide, by decide, C2_zero_check_iff wC2 (by decide) (by decide)⟩

/-- Claim C4: on success the returned record has blockWidth, blockHeight
and blockDepth equal to bytes 4, 5 and 6, its width, height and depth equal
to the 24-bit little-endian integers at bytes 7-9, 10-12 and 13-15, and its
headerSize equals 16. -/
theorem C4_parse_fields (data : List Nat) (h : ASTCHeader)
    (hb : ∀ x ∈ data, x < 256)
    (hp : parseASTCHeader data = .ok h) :
    h.blockWidth = byteAt data 4 ∧ h.blockHeight = byteAt data 5 ∧
    h.blockDepth = byteAt data 6 ∧
    h.width = byteAt data 7 + byteAt data 8 * 256 + byteAt data 9 * 65536 ∧
    h.height = byteAt data 10 + byteAt data 11 * 256 + byteAt data 12 * 65536 ∧
    h.depth = byteAt data 13 + byteAt data 14 * 256 + byteAt data 15 * 65536 ∧
    h.headerSize = 16 := by
  rw [parse_ok_elim hp]
  refine ⟨rfl, rfl, rfl, ?_, ?_, ?_, rfl⟩
  · exact read24LE_eq_add 7 (byteAt_lt_256 hb 7) (byteAt_lt_256 hb 8)
  · exact read24LE_eq_add 10 (byteAt_lt_256 hb 10) (byteAt_lt_256 hb 11)
  · exact read24LE_eq_add 13 (byteAt_lt_256 hb 13) (byteAt_lt_256 hb 14)

/-- Claim C4 (witness): the field extraction evaluated on a concrete header
with multi-byte dimension values. -/
theorem C4_parse_fields_witness :
    (∀ x ∈ wC4, x < 256) ∧ parseASTCHeader wC4 = .ok (mkHeader wC4) ∧
    ((mkHeader wC4).blockWidth = byteAt wC4 4 ∧
     (mkHeader wC4).blockHeight = byteAt wC4 5 ∧
     (mkHeader wC4).blockDepth = byteAt wC4 6 ∧
     (mkHeader wC4).width =
       byteAt wC4 7 + byteAt wC4 8 * 256 + byteAt wC4 9 * 65536 ∧
     (mkHeader wC4).height =
       byteAt wC4 10 + byteAt wC4 11 * 256 + byteAt wC4 12 * 65536 ∧
     (mkHeader wC4).depth =
       byteAt wC4 13 + byteAt wC4 14 * 256 + byteAt wC4 15 * 65536 ∧
     (mkHeader wC4).headerSize = 16) :=
  ⟨by decide, rfl, C4_parse_fields wC4 (mkHeader wC4) (by decide) rfl⟩

/-- Claim C8: serializing valid header fields into the 16-byte layout and
reparsing yields a record with identical blockWidth, blockHeight,
blockDepth, width, height and depth fields. -/
theorem C8_header_roundtrip (bw bh bd w h d : Nat)
    (hbw : bw < 256) (hbh : bh < 256) (hbd : bd < 256)
    (hw : w < 16777216) (hh : h < 16777216) (hd : d < 16777216)
    (hw0 : w ≠ 0) (hh0 : h ≠ 0) (hbw0 : bw ≠ 0) (hbh0 : bh ≠ 0) :
    ∃ r, parseASTCHeader (encodeHeaderSpec bw bh bd w h d) = .ok r ∧
      r.blockWidth = bw ∧ r.blockHeight = bh ∧ r.blockDepth = bd ∧
      r.width = w ∧ r.height = h ∧ r.depth = d := by
  have hlen : (encodeHeaderSpec bw bh bd w h d).length = 16 := rfl
  have hmagic : isValidMagic (encodeHeaderSpec bw bh bd w h d) = true := rfl
  have hb4 : byteAt (encodeHeaderSpec bw bh bd w h d) 4 = bw := rfl
  have hb5 : byteAt (encodeHeaderSpec bw bh bd w h d) 5 = bh := rfl
  have hrw : read24LE (encodeHeaderSpec bw bh bd w h d) 7 = w := by
    have h1 : read24LE (encodeHeaderSpec bw bh bd w h d) 7 =
        (w % 256) ||| ((w / 256 % 256) <<< 8) ||| ((w / 65536 % 256) <<< 16) := rfl
    rw [h1, lor24_eq_add (Nat.mod_lt _ (by norm_num)) (Nat.mod_lt _ (by norm_num))]
    omega
  have hrh : read24LE (encodeHeaderSpec bw bh bd w h d) 10 = h := by
    have h1 : read24LE (encodeHeaderSpec bw bh bd w h d) 10 =
        (h % 256) ||| ((h / 256 % 256) <<< 8) ||| ((h / 65536 % 256) <<< 16) := rfl
    rw [h1, lor24_eq_add (Nat.mod_lt _ (by norm_num)) (Nat.mod_lt _ (by norm_num))]
    omega
  have hrd : read24LE (encodeHeaderSpec bw bh bd w h d) 13 = d := by
    have h1 : read24LE (encodeHeaderSpec bw bh bd w h d) 13 =
        (d % 256) ||| ((d / 256 % 256) <<< 8) ||| ((d / 65536 % 256) <<< 16) := rfl
    rw [h1, lor24_eq_add (Nat.mod_lt _ (by norm_num)) (Nat.mod_lt _ (by norm_num))]
    omega
  have hok : parseASTCHeader (encodeHeaderSpec bw bh bd w h d) =
      .ok (mkHeader (encodeHeaderSpec bw bh bd w h d)) := by
    apply parse_ok_of
    · rw [hlen]; omega
    · exact hmagic
    · rw [hrw, hrh]; tauto
    · rw [hb4, hb5]; tauto
  exact ⟨mkHeader (encodeHeaderSpec bw bh bd w h d), hok, hb4, hb5, rfl,
    hrw, hrh, hrd⟩

/-- Claim C8 (witness): the round-trip evaluated on concrete valid header
fields. -/
theorem C8_header_roundtrip_witness :
    ((4 : Nat) < 256 ∧ (1 : Nat) < 256 ∧ (300 : Nat) < 16777216 ∧
     (200 : Nat) < 16777216 ∧ (5 : Nat) < 16777216 ∧ (300 : Nat) ≠ 0 ∧
     (200 : Nat) ≠ 0 ∧ (4 : Nat) ≠ 0) ∧
    (∃ r, parseASTCHeader (encodeHeaderSpec 4 4 1 300 200 5) = .ok r ∧
      r.blockWidth = 4 ∧ r.blockHeight = 4 ∧ r.blockDepth = 1 ∧
      r.width = 300 ∧ r.height = 200 ∧ r.depth = 5) :=
  ⟨⟨by decide, by decide, by decide, by decide, by decide, by decide,
     by decide, by decide⟩,
   C8_header_roundtrip 4 4 1 300 200 5 (by decide) (by decide) (by decide)
     (by decide) (by decide) (by decide) (by decide) (by decide) (by decide)
     (by decide)⟩

/-- Claim C1 (amended): a successful `decodeASTCTexture` call on a buffer
whose header parses returns a buffer of exactly width*height*4 bytes; the
depth field plays no role in the output size (the declared size
width*height*depth*4 of the claim holds only when depth = 1). -/
theorem C1_output_size (fn : WasmCall → List Nat) (data : List Nat)
    (h : ASTCHeader) (out : List Nat) (calls : List WasmCall)
    (hp : parseASTCHeader data = .ok h)
    (hd : decodeASTCTexture true fn data = (.ok out, calls)) :
    out.length = h.width * h.height * 4 := by
  by_cases he : (data.drop h.headerSize).length = 0
  · rw [decode_empty_payload fn hp he, Prod.mk.injEq] at hd
    exact Except.noConfusion hd.1
  · rw [decode_ok_payload fn hp he] at hd
    split_ifs at hd with hsz
    · rw [Prod.mk.injEq] at hd
      have h1 := hd.1
      rw [Except.ok.injEq] at h1
      rw [← h1]
      exact padTruncate_length _ _
    · rw [Prod.mk.injEq] at hd
      have h1 := hd.1
      rw [Except.ok.injEq] at h1
      rw [← h1]
      omega

/-- Claim C1 (counterexample): a successful decode of a file declaring
width 1, height 1, depth 2 returns 4 bytes, not
width*height*depth*4 = 8 bytes. -/
theorem C1_output_size_cex :
    parseASTCHeader cexC1 = .ok (mkHeader cexC1) ∧
    (mkHeader cexC1).width * (mkHeader cexC1).height *
      (mkHeader cexC1).depth * 4 = 8 ∧
    decodeASTCTexture true fnEmpty cexC1 = (.ok [0, 0, 0, 0], [⟨[9], 1, 1, 1, 1⟩]) ∧
    ([0, 0, 0, 0] : List Nat).length ≠ 8 :=
  ⟨rfl, by decide, rfl, by decide⟩

/-- Claim C1 (witness): the amended size law evaluated on a concrete 2x1
file whose WebAssembly decode returns an empty buffer. -/
theorem C1_output_size_witness :
    parseASTCHeader wC1 = .ok (mkHeader wC1) ∧
    decodeASTCTexture true fnEmpty wC1 =
      (.ok (List.replicate 8 0), [⟨[5], 2, 1, 1, 1⟩]) ∧
    (List.replicate 8 (0 : Nat)).length =
      (mkHeader wC1).width * (mkHeader wC1).height * 4 :=
  ⟨rfl, rfl,
   C1_output_size fnEmpty wC1 (mkHeader wC1) (List.replicate 8 0)
     [⟨[5], 2, 1, 1, 1⟩] rfl rfl⟩

/-- Claim C5: when the WebAssembly decode returns a buffer whose length
differs from width*height*4, `decodeASTCTexture` does not fail: it returns
a buffer of exactly width*height*4 bytes whose first
min(returnedLength, width*height*4) bytes are the corresponding prefix of
the WebAssembly output and whose remaining bytes are zero. -/
theorem C5_size_mismatch_repair (fn : WasmCall → List Nat) (data : List Nat)
    (h : ASTCHeader) (call : WasmCall)
    (hp : parseASTCHeader data = .ok h)
    (hlen : 16 < data.length)
    (hcall : call = ⟨data.drop 16, h.width, h.height, h.blockWidth, h.blockHeight⟩)
    (hmis : (fn call).length ≠ h.width * h.height * 4) :
    decodeASTCTexture true fn data =
      (.ok (padTruncate (fn call) (h.width * h.height * 4)), [call]) ∧
    (padTruncate (fn call) (h.width * h.height * 4)).length =
      h.width * h.height * 4 ∧
    (padTruncate (fn call) (h.width * h.height * 4)).take
        (min (fn call).length (h.width * h.height * 4)) =
      (fn call).take (min (fn call).length (h.width * h.height * 4)) ∧
    (padTruncate (fn call) (h.width * h.height * 4)).drop
        (min (fn call).length (h.width * h.height * 4)) =
      List.replicate
        (h.width * h.height * 4 - min (fn call).length (h.width * h.height * 4))
        0 := by
  have h16 : h.headerSize = 16 := by rw [parse_ok_elim hp]; rfl
  have hne : (data.drop h.headerSize).length ≠ 0 := by
    rw [h16, List.length_drop]
    omega
  refine ⟨?_, padTruncate_length _ _, padTruncate_take _ _, padTruncate_drop _ _⟩
  rw [decode_ok_payload fn hp hne, h16, ← hcall, if_pos hmis]

/-- Claim C5 (witness): the repair behaviour evaluated on a concrete 1x1
file whose WebAssembly decode returns five bytes instead of four. -/
theorem C5_size_mismatch_repair_witness :
    parseASTCHeader wC5 = .ok (mkHeader wC5) ∧ 16 < wC5.length ∧
    wC5call = ⟨wC5.drop 16, (mkHeader wC5).width, (mkHeader wC5).height,
      (mkHeader wC5).blockWidth, (mkHeader wC5).blockHeight⟩ ∧
    (fnFive wC5call).length ≠ (mkHeader wC5).width * (mkHeader wC5).height * 4 ∧
    decodeASTCTexture true fnFive wC5 = (.ok [7, 7, 7, 7], [wC5call]) :=
  ⟨rfl, by decide, rfl, by decide,
   (C5_size_mismatch_repair fnFive wC5 (mkHeader wC5) wC5call rfl (by decide)
     rfl (by decide)).1⟩

/-- Claim C6 (amended): `decodeASTCTexture` performs no payload-size
validation against the declared block count; with any parsed header and any
non-empty payload (however truncated) it does not fail, and it invokes the
WebAssembly decode once on that payload. -/
theorem C6_no_block_count_check (fn : WasmCall → List Nat) (data : List Nat)
    (h : ASTCHeader) (hp : parseASTCHeader data = .ok h)
    (hlen : 16 < data.length) :
    isErrD (decodeASTCTexture true fn data).1 = false ∧
    (decodeASTCTexture true fn data).2 =
      [⟨data.drop 16, h.width, h.height, h.blockWidth, h.blockHeight⟩] := by
  have h16 : h.headerSize = 16 := by rw [parse_ok_elim hp]; rfl
  have hne : (data.drop h.headerSize).length ≠ 0 := by
    rw [h16, List.length_drop]
    omega
  rw [decode_ok_payload fn hp hne, h16]
  split_ifs with hsz
  · exact ⟨rfl, rfl⟩
  · exact ⟨rfl, rfl⟩

/-- Claim C6 (counterexample): a valid header declaring a 2x2 block grid
(four 16-byte blocks) followed by only one block's worth of bytes is NOT
rejected: the decode succeeds, contradicting the claim that it fails with
an error identifying the missing block index. -/
theorem C6_truncated_payload_cex :
    parseASTCHeader cexC6 = .ok (mkHeader cexC6) ∧
    1 < declaredBlockCount (mkHeader cexC6) ∧
    cexC6.length - 16 < declaredBlockCount (mkHeader cexC6) * 16 ∧
    isErrD (decodeASTCTexture true fnEmpty cexC6).1 = false :=
  ⟨rfl, by decide, by decide, by decide⟩

/-- Claim C6 (witness): the amended no-validation law evaluated on a
concrete truncated file. -/
theorem C6_no_block_count_check_witness :
    parseASTCHeader wC6 = .ok (mkHeader wC6) ∧ 16 < wC6.length ∧
    (isErrD (decodeASTCTexture true fnEmpty wC6).1 = false ∧
     (decodeASTCTexture true fnEmpty wC6).2 =
       [⟨wC6.drop 16, (mkHeader wC6).width, (mkHeader wC6).height,
         (mkHeader wC6).blockWidth, (mkHeader wC6).blockHeight⟩]) :=
  ⟨rfl, by decide,
   C6_no_block_count_check fnEmpty wC6 (mkHeader wC6) rfl (by decide)⟩

/-- Claim C7: on any buffer whose first four bytes are not the ASTC magic,
`decodeASTCTexture` fails and performs no WebAssembly invocation (in
particular no output-buffer handling and no allocator or decode call). -/
theorem C7_bad_magic_no_wasm (wasmInit : Bool) (fn : WasmCall → List Nat)
    (data : List Nat)
    (hm : ¬(byteAt data 0 = 0x13 ∧ byteAt data 1 = 0xAB ∧
            byteAt data 2 = 0xA1 ∧ byteAt data 3 = 0x5C)) :
    isErrD (decodeASTCTexture wasmInit fn data).1 = true ∧
    (decodeASTCTexture wasmInit fn data).2 = [] := by
  cases wasmInit
  · rw [decode_not_init]
    exact ⟨rfl, rfl⟩
  · have hfail : isErr (parseASTCHeader data) = true := by
      rw [parse_fail_iff_core]
      refine Or.inr (Or.inl ?_)
      exact Bool.eq_false_iff.mpr fun ht => hm ((isValidMagic_iff data).mp ht)
    cases hpe : parseASTCHeader data with
    | error e =>
      rw [decode_parse_err fn hpe]
      exact ⟨rfl, rfl⟩
    | ok hh =>
      rw [hpe] at hfail
      exact absurd hfail (by simp [isErr])

/-- Claim C7 (witness): the bad-magic law evaluated on an otherwise-valid
buffer whose magic bytes are zeroed. -/
theorem C7_bad_magic_no_wasm_witness :
    ¬(byteAt wC7 0 = 0x13 ∧ byteAt wC7 1 = 0xAB ∧
      byteAt wC7 2 = 0xA1 ∧ byteAt wC7 3 = 0x5C) ∧
    (isErrD (decodeASTCTexture true fnEmpty wC7).1 = true ∧
     (decodeASTCTexture true fnEmpty wC7).2 = []) :=
  ⟨by decide, C7_bad_magic_no_wasm true fnEmpty wC7 (by decide)⟩

/-- Claim C9: two buffers of the same length that agree everywhere except
possibly at byte 6 (block depth) and bytes 13-15 (image depth) produce
identical `decodeASTCTexture` results under the same (deterministic)
WebAssembly decode function: the depth fields do not influence the decode
outcome. -/
theorem C9_depth_noninterference (wasmInit : Bool) (fn : WasmCall → List Nat)
    (d1 d2 : List Nat) (hlen : d1.length = d2.length)
    (hagree : ∀ i, i ≠ 6 → ¬(13 ≤ i ∧ i ≤ 15) → byteAt d1 i = byteAt d2 i) :
    decodeASTCTexture wasmInit fn d1 = decodeASTCTexture wasmInit fn d2 := by
  cases wasmInit
  · rw [decode_not_init, decode_not_init]
  · have h0 := hagree 0 (by omega) (by omega)
    have h1 := hagree 1 (by omega) (by omega)
    have h2 := hagree 2 (by omega) (by omega)
    have h3 := hagree 3 (by omega) (by omega)
    have h4 := hagree 4 (by omega) (by omega)
    have h5 := hagree 5 (by omega) (by omega)
    have h7 := hagree 7 (by omega) (by omega)
    have h8 := hagree 8 (by omega) (by omega)
    have h9 := hagree 9 (by omega) (by omega)
    have h10 := hagree 10 (by omega) (by omega)
    have h11 := hagree 11 (by omega) (by omega)
    have h12 := hagree 12 (by omega) (by omega)
    have hm : isValidMagic d1 = isValidMagic d2 := by
      have e1 : isValidMagic d1 =
          ((byteAt d1 0 == 0x13) && ((byteAt d1 1 == 0xAB) &&
            ((byteAt d1 2 == 0xA1) && ((byteAt d1 3 == 0x5C) && true)))) := rfl
      have e2 : isValidMagic d2 =
          ((byteAt d2 0 == 0x13) && ((byteAt d2 1 == 0xAB) &&
            ((byteAt d2 2 == 0xA1) && ((byteAt d2 3 == 0x5C) && true)))) := rfl
      rw [e1, e2, h0, h1, h2, h3]
    have hw : read24LE d1 7 = read24LE d2 7 := by
      show byteAt d1 7 ||| (byteAt d1 8 <<< 8) ||| (byteAt d1 9 <<< 16) =
        byteAt d2 7 ||| (byteAt d2 8 <<< 8) ||| (byteAt d2 9 <<< 16)
      rw [h7, h8, h9]
    have hh : read24LE d1 10 = read24LE d2 10 := by
      show byteAt d1 10 ||| (byteAt d1 11 <<< 8) ||| (byteAt d1 12 <<< 16) =
        byteAt d2 10 ||| (byteAt d2 11 <<< 8) ||| (byteAt d2 12 <<< 16)
      rw [h10, h11, h12]
    have hdrop : d1.drop 16 = d2.drop 16 :=
      drop16_eq_of_agree hlen fun i hi => hagree i (by omega) (by omega)
    by_cases hl : d1.length < 16
    · rw [decode_parse_err fn (parse_err_len hl),
        decode_parse_err fn (parse_err_len (by omega))]
    · by_cases hmg : isValidMagic d1 = true
      · by_cases hz : read24LE d1 7 = 0 ∨ read24LE d1 10 = 0
        · rw [decode_parse_err fn (parse_err_dims hl hmg hz),
            decode_parse_err fn
              (parse_err_dims (by omega) (by rw [← hm]; exact hmg)
                (by rw [← hw, ← hh]; exact hz))]
        · by_cases hbz : byteAt d1 4 = 0 ∨ byteAt d1 5 = 0
          · rw [decode_parse_err fn (parse_err_blocks hl hmg hz hbz),
              decode_parse_err fn
                (parse_err_blocks (by omega) (by rw [← hm]; exact hmg)
                  (by rw [← hw, ← hh]; exact hz)
                  (by rw [← h4, ← h5]; exact hbz))]
          · have hok1 : parseASTCHeader d1 = .ok (mkHeader d1) :=
              parse_ok_of hl hmg hz hbz
            have hok2 : parseASTCHeader d2 = .ok (mkHeader d2) :=
              parse_ok_of (by omega) (by rw [← hm]; exact hmg)
                (by rw [← hw, ← hh]; exact hz) (by rw [← h4, ← h5]; exact hbz)
            by_cases hpl : (d1.drop 16).length = 0
            · rw [decode_empty_payload fn hok1
                  (show (d1.drop (mkHeader d1).headerSize).length = 0 from hpl),
                decode_empty_payload fn hok2
                  (show (d2.drop (mkHeader d2).headerSize).length = 0 from
                    hdrop ▸ hpl)]
            · rw [decode_ok_payload fn hok1
                  (show (d1.drop (mkHeader d1).headerSize).length ≠ 0 from hpl),
                decode_ok_payload fn hok2
                  (show (d2.drop (mkHeader d2).headerSize).length ≠ 0 from
                    hdrop ▸ hpl)]
              simp only [mkHeader_width, mkHeader_height, mkHeader_blockWidth,
                mkHeader_blockHeight, mkHeader_headerSize]
              rw [hw, hh, h4, h5, hdrop]
      · have hmg1 : isValidMagic d1 = false := by
          rwa [← Bool.not_eq_true]
        rw [decode_parse_err fn (parse_err_magic hl hmg1),
          decode_parse_err fn
            (parse_err_magic (by omega) (by rw [← hm]; exact hmg1))]

/-- The two witness buffers for the depth-noninterference law agree outside
byte 6 and bytes 13-15. -/
theorem wC9_agree (i : Nat) (h6 : i ≠ 6) (h13 : ¬(13 ≤ i ∧ i ≤ 15)) :
    byteAt wC9a i = byteAt wC9b i := by
  by_cases hi : i < 19
  · interval_cases i <;> first | rfl | omega
  · have la : wC9a.length = 19 := rfl
    have lb : wC9b.length = 19 := rfl
    rw [byteAt, byteAt, List.getD_eq_getElem?_getD, List.getD_eq_getElem?_getD,
      List.getElem?_eq_none (by omega), List.getElem?_eq_none (by omega)]

/-- Claim C9 (witness): the noninterference law evaluated on two concrete
buffers differing only in the block-depth byte and the image-depth bytes. -/
theorem C9_depth_noninterference_witness :
    wC9a.length = wC9b.length ∧ byteAt wC9a 6 ≠ byteAt wC9b 6 ∧
    byteAt wC9a 13 ≠ byteAt wC9b 13 ∧
    decodeASTCTexture true fnEmpty wC9a = decodeASTCTexture true fnEmpty wC9b :=
  ⟨rfl, by decide, by decide,
   C9_depth_noninterference true fnEmpty wC9a wC9b rfl wC9_agree⟩

/-- Claim C10: on a buffer of length exactly 16 that parses as a valid
header, `decodeASTCTexture` fails with the no-compressed-data error and
performs no WebAssembly invocation. -/
theorem C10_empty_payload_rejected (fn : WasmCall → List Nat)
    (data : List Nat) (h : ASTCHeader) (hlen : data.length = 16)
    (hp : parseASTCHeader data = .ok h) :
    decodeASTCTexture true fn data =
      (.error "No compressed data found after ASTC header", []) := by
  have h16 : h.headerSize = 16 := by rw [parse_ok_elim hp]; rfl
  apply decode_empty_payload fn hp
  rw [h16, List.length_drop]
  omega

/-- Claim C10 (witness): the empty-payload rejection evaluated on a
concrete header-only buffer. -/
theorem C10_empty_payload_rejected_witness :
    wC10.length = 16 ∧ parseASTCHeader wC10 = .ok (mkHeader wC10) ∧
    decodeASTCTexture true fnEmpty wC10 =
      (.error "No compressed data found after ASTC header", []) :=
  ⟨rfl, rfl,
   C10_empty_payload_rejected fnEmpty wC10 (mkHeader wC10) rfl rfl⟩
